import Mathlib

/-!
Shallow embedding of the sign-out confirmation flow:

* `ConfirmationModal` from `src/skills/openai-agents-typescript.md`
  (the reusable confirmation gate), including its body-scroll side
  effect (`useEffect` over `isOpen`).
* `AuthButton` from `src/components/auth/AuthButton.tsx`
  (the sign-out control binding the gate to the session provider).

Callbacks are modelled as emitted events; the asynchronous
`confirmSignOut` handler is split at its single suspension point into a
synchronous start phase and a resumption phase, and the whole control is
given as an event-step machine so that ordering properties can be
stated.
-/

namespace SignOutFlow

/-- Events a modal control can emit when the user activates it: the two
callbacks the consumer wires in. -/
inductive CallbackEvent where
  | callClose
  | callConfirm
  deriving DecidableEq, Repr

/-- The `variant` prop of `ConfirmationModal`. -/
inductive Severity where
  | danger
  | warning
  | info
  deriving DecidableEq, Repr

/-- Props of `ConfirmationModal`, with the default values from the
source destructuring. -/
structure ConfirmationModalProps where
  isOpen : Bool
  title : String := "Are you sure?"
  description : String := "This action make your sessions end, and use a new login token."
  confirmLabel : String := "Confirm"
  cancelLabel : String := "Cancel"
  variant : Severity := Severity.danger
  isLoading : Bool := false
  deriving DecidableEq, Repr

/-- A rendered interactive control: the callback events its click
handler emits, whether it carries the `disabled` attribute, its visible
label and its style classes. -/
structure Control where
  handler : List CallbackEvent
  disabled : Bool
  label : String
  classes : String
  deriving DecidableEq, Repr

/-- DOM semantics of activating a control: a disabled button fires no
click handler; an enabled one emits its handler events. -/
def Control.activate (c : Control) : List CallbackEvent :=
  if c.disabled then [] else c.handler

/-- Style classes of the icon container, from the `cn` call in the
source. -/
def iconClassesFor : Severity → String
  | Severity.danger => "bg-destructive/10 text-destructive"
  | Severity.warning => "bg-orange-500/10 text-orange-500"
  | Severity.info => "bg-primary/10 text-primary"

/-- Style classes of the confirm button, from the `cn` call in the
source. -/
def confirmClassesFor : Severity → String
  | Severity.danger => "bg-destructive hover:bg-destructive/90 shadow-destructive/20"
  | Severity.warning => "bg-orange-600 hover:bg-orange-700 shadow-orange-500/20"
  | Severity.info => "bg-primary hover:bg-primary/90 shadow-primary/20"

/-- The dialog rendered when `isOpen` is true: backdrop, close button,
content text, and the cancel and confirm buttons. -/
structure RenderedDialog where
  backdrop : Control
  closeButton : Control
  titleText : String
  descriptionText : String
  iconClasses : String
  cancelButton : Control
  confirmButton : Control
  deriving DecidableEq, Repr

/-- The render of `ConfirmationModal`: nothing when `isOpen` is false,
otherwise the dialog. The backdrop and close button carry `onClose`
unconditionally; the cancel and confirm buttons carry
`disabled=isLoading`; the confirm label shows a processing indicator
while loading. -/
def renderConfirmationModal (p : ConfirmationModalProps) : Option RenderedDialog :=
  if p.isOpen then
    some
      { backdrop :=
          { handler := [CallbackEvent.callClose]
            disabled := false
            label := ""
            classes := "absolute inset-0 bg-black/60 backdrop-blur-sm" }
        closeButton :=
          { handler := [CallbackEvent.callClose]
            disabled := false
            label := ""
            classes := "absolute right-4 top-4 p-2 rounded-full text-muted-foreground hover:bg-accent hover:text-foreground transition-colors" }
        titleText := p.title
        descriptionText := p.description
        iconClasses := iconClassesFor p.variant
        cancelButton :=
          { handler := [CallbackEvent.callClose]
            disabled := p.isLoading
            label := p.cancelLabel
            classes := "w-full sm:w-auto rounded-xl border-border/50" }
        confirmButton :=
          { handler := [CallbackEvent.callConfirm]
            disabled := p.isLoading
            label := if p.isLoading then "Processing..." else p.confirmLabel
            classes := confirmClassesFor p.variant } }
  else
    none

/-- The behavioural content of a control: everything except styling. -/
structure ControlBehaviour where
  handler : List CallbackEvent
  disabled : Bool
  label : String
  deriving DecidableEq, Repr

/-- Erase the styling of a control. -/
def Control.behaviour (c : Control) : ControlBehaviour :=
  { handler := c.handler, disabled := c.disabled, label := c.label }

/-- The behavioural content of the rendered dialog: wiring, disabled
flags and label text of every control, plus the content text — all
styling classes erased. -/
structure DialogBehaviour where
  backdrop : ControlBehaviour
  closeButton : ControlBehaviour
  titleText : String
  descriptionText : String
  cancelButton : ControlBehaviour
  confirmButton : ControlBehaviour
  deriving DecidableEq, Repr

/-- Erase the styling of a rendered dialog. -/
def RenderedDialog.behaviour (d : RenderedDialog) : DialogBehaviour :=
  { backdrop := d.backdrop.behaviour
    closeButton := d.closeButton.behaviour
    titleText := d.titleText
    descriptionText := d.descriptionText
    cancelButton := d.cancelButton.behaviour
    confirmButton := d.confirmButton.behaviour }

/-!
Scroll-lock side effect of `ConfirmationModal`.

The source effect body assigns "hidden" to
`document.body.style.overflow` when `isOpen` is true and "unset"
otherwise, and returns a cleanup that assigns "unset". React runs the effect body after the first render, runs the previous
cleanup followed by the body whenever the dependency `isOpen` changes
between renders, and runs the last cleanup on unmount (when an effect
has run at all). We model a component lifetime as the list of `isOpen`
values of its successive renders plus a flag saying whether it was
finally unmounted, and record the trace of values assigned to
`document.body.style.overflow`.
-/

/-- Value the effect body assigns to `document.body.style.overflow`. -/
def effectAssign (isOpen : Bool) : String :=
  if isOpen then "hidden" else "unset"

/-- Assignments produced after the first effect has run with dependency
`prev`: re-renders with an unchanged `isOpen` run nothing, a changed
`isOpen` runs the previous cleanup then the body, and unmount runs the
last cleanup. -/
def modalTraceAux (prev : Bool) (unmounted : Bool) : List Bool → List String
  | [] => if unmounted then ["unset"] else []
  | o :: rest =>
      if o = prev then modalTraceAux prev unmounted rest
      else "unset" :: effectAssign o :: modalTraceAux o unmounted rest

/-- Full assignment trace of a component lifetime: the first render runs
the effect body, the rest follows `modalTraceAux`; a component that
never rendered assigns nothing. -/
def modalTrace (renders : List Bool) (unmounted : Bool) : List String :=
  match renders with
  | [] => []
  | o :: rest => effectAssign o :: modalTraceAux o unmounted rest

/-- Background scroll counts as suppressed exactly when the overflow
style is the literal the effect uses to suppress it. -/
def isSuppressed (s : String) : Bool := s == "hidden"

/-- Number of scroll-suppression activations along an assignment trace:
assignments that turn the suppressed state from off to on. -/
def countActivations (cur : String) : List String → Nat
  | [] => 0
  | a :: rest =>
      (if !isSuppressed cur && isSuppressed a then 1 else 0) + countActivations a rest

/-- Number of scroll-suppression releases along an assignment trace:
assignments that turn the suppressed state from on to off. -/
def countReleases (cur : String) : List String → Nat
  | [] => 0
  | a :: rest =>
      (if isSuppressed cur && !isSuppressed a then 1 else 0) + countReleases a rest

/-- Overflow style left after an assignment trace. -/
def finalOverflow (cur : String) : List String → String
  | [] => cur
  | a :: rest => finalOverflow a rest

/-- The `isOpen` value of the last render, `prev` when there is none. -/
def lastRender (prev : Bool) : List Bool → Bool
  | [] => prev
  | o :: rest => lastRender o rest

/-- Number of transitions of `isOpen` into `true` over a lifetime, the
gate counting as closed before the first render. -/
def countOpens (prev : Bool) : List Bool → Nat
  | [] => 0
  | o :: rest => (if !prev && o then 1 else 0) + countOpens o rest

/-- Number of transitions of `isOpen` out of `true` over a lifetime,
counting an unmount while still open as one. -/
def countCloses (prev : Bool) (unmounted : Bool) : List Bool → Nat
  | [] => if prev && unmounted then 1 else 0
  | o :: rest => (if prev && !o then 1 else 0) + countCloses o unmounted rest

/-- Whether the gate is still open at the end of the lifetime. -/
def gateOpenAtEnd (renders : List Bool) (unmounted : Bool) : Bool :=
  !unmounted && lastRender false renders

/-!
`AuthButton` from `src/components/auth/AuthButton.tsx`.

Local state is the two `useState` hooks. Outward side effects are the
call to `authClient.signOut()`, calls to `router.push`, and the
`console.error` diagnostic; they are modelled as emitted events. The
async handler `confirmSignOut` suspends exactly once, at
`await authClient.signOut()`; we split it there into `confirmSignOutStart`
(the synchronous part before the await, which sets the loading flag and
issues the call) and `confirmSignOutResume` (the continuation running
when the promise settles, covering the try/catch/finally).
-/

/-- The two `useState` hooks of `AuthButton`. -/
structure AuthState where
  showSignOutConfirm : Bool
  isSigningOut : Bool
  deriving DecidableEq, Repr

/-- Outward side effects of `AuthButton`. -/
inductive Effect where
  | signOutCall
  | navigate (path : String)
  | logError (msg : String)
  deriving DecidableEq, Repr

/-- Whether an effect is a navigation request. -/
def Effect.isNav : Effect → Bool
  | Effect.navigate _ => true
  | _ => false

/-- Whether an effect is the diagnostic log. -/
def Effect.isDiagnostic : Effect → Bool
  | Effect.logError _ => true
  | _ => false

/-- `handleSignOutClick`: sets `showSignOutConfirm` to true; no other
effect. -/
def handleSignOutClick (s : AuthState) : AuthState × List Effect :=
  ({ s with showSignOutConfirm := true }, [])

/-- Synchronous part of `confirmSignOut` before the await: sets
`isSigningOut` true and issues the sign-out call. -/
def confirmSignOutStart (s : AuthState) : AuthState × List Effect :=
  ({ s with isSigningOut := true }, [Effect.signOutCall])

/-- How the awaited `authClient.signOut()` promise settles. -/
inductive SignOutResult where
  | success
  | failure (err : String)
  deriving DecidableEq, Repr

/-- Continuation of `confirmSignOut` after the await. On success the
try block continues: hide the gate, push the home route; on rejection
the catch block logs the error; the finally block clears the loading
flag on both paths. -/
def confirmSignOutResume (r : SignOutResult) (s : AuthState) : AuthState × List Effect :=
  match r with
  | SignOutResult.success =>
      ({ s with showSignOutConfirm := false, isSigningOut := false },
       [Effect.navigate "/"])
  | SignOutResult.failure err =>
      ({ s with isSigningOut := false },
       [Effect.logError ("Error signing out: " ++ err)])

/-- The view `AuthButton` returns: the loading placeholder, the
signed-in view (modal plus sign-out button), or the sign-in button. -/
inductive AuthView where
  | placeholder (disabled : Bool)
  | signedIn (modal : Option RenderedDialog) (signOutButtonLabel : String)
  | signIn (navTarget : String) (label : String)
  deriving DecidableEq, Repr

/-- The modal props `AuthButton` passes to `ConfirmationModal` for a
given local state. -/
def authModalProps (s : AuthState) : ConfirmationModalProps :=
  { isOpen := s.showSignOutConfirm
    title := "Sign Out"
    description := "Are you sure you want to sign out?"
    confirmLabel := "Sign Out"
    isLoading := s.isSigningOut }

/-- What the session provider reports: `useSession` data (a session or
null) and its pending flag. -/
structure SessionInfo where
  hasSession : Bool
  isPending : Bool
  deriving DecidableEq, Repr

/-- The render of `AuthButton`: a disabled placeholder while the session
query is pending, the signed-in view when a session is present, and the
sign-in button otherwise. -/
def renderAuthButton (sess : SessionInfo) (s : AuthState) : AuthView :=
  if sess.isPending then
    AuthView.placeholder true
  else if sess.hasSession then
    AuthView.signedIn (renderConfirmationModal (authModalProps s)) "Sign Out"
  else
    AuthView.signIn "/sign-in" "Sign In"

/-- Whether a view is the sign-in affordance. -/
def AuthView.isSignInView : AuthView → Bool
  | AuthView.signIn _ _ => true
  | _ => false

/-!
Event-step machine for the signed-in control: `AuthButton` with a
present session, its rendered modal, and the outstanding sign-out
promise. User events activate the rendered controls; a disabled or
absent control makes the event a no-op. `pendingSignOut` records that a
sign-out call was issued and has not settled yet; its settling delivers
`resolveSignOut`.
-/

/-- State of the signed-in control together with the outstanding
promise. -/
structure SystemState where
  ui : AuthState
  pendingSignOut : Bool
  deriving DecidableEq, Repr

/-- Events driving the signed-in control. -/
inductive UserEvent where
  | clickSignOut
  | clickConfirm
  | clickCancel
  | clickBackdrop
  | clickCloseButton
  | resolveSignOut (r : SignOutResult)
  deriving DecidableEq, Repr

/-- Initial state: both hooks false, no call outstanding. -/
def initState : SystemState :=
  { ui := { showSignOutConfirm := false, isSigningOut := false }, pendingSignOut := false }

/-- One step of the signed-in control. Modal controls act only while the
modal is rendered (`showSignOutConfirm`); the cancel and confirm buttons
additionally only while not disabled (`isSigningOut` false, per
`disabled=isLoading`); the backdrop and close button have no such guard.
`resolveSignOut` acts only when a call is outstanding. -/
def step (s : SystemState) : UserEvent → SystemState × List Effect
  | UserEvent.clickSignOut =>
      let (ui, effs) := handleSignOutClick s.ui
      ({ s with ui := ui }, effs)
  | UserEvent.clickConfirm =>
      if s.ui.showSignOutConfirm && !s.ui.isSigningOut then
        let (ui, effs) := confirmSignOutStart s.ui
        ({ ui := ui, pendingSignOut := true }, effs)
      else (s, [])
  | UserEvent.clickCancel =>
      if s.ui.showSignOutConfirm && !s.ui.isSigningOut then
        ({ s with ui := { s.ui with showSignOutConfirm := false } }, [])
      else (s, [])
  | UserEvent.clickBackdrop =>
      if s.ui.showSignOutConfirm then
        ({ s with ui := { s.ui with showSignOutConfirm := false } }, [])
      else (s, [])
  | UserEvent.clickCloseButton =>
      if s.ui.showSignOutConfirm then
        ({ s with ui := { s.ui with showSignOutConfirm := false } }, [])
      else (s, [])
  | UserEvent.resolveSignOut r =>
      if s.pendingSignOut then
        let (ui, effs) := confirmSignOutResume r s.ui
        ({ ui := ui, pendingSignOut := false }, effs)
      else (s, [])

/-- States reachable from the initial state by steps. -/
inductive Reachable : SystemState → Prop where
  | init : Reachable initState
  | next {s : SystemState} (e : UserEvent) : Reachable s → Reachable (step s e).1

/-! Theorems. -/

/-- Claim C1, counterexample: with `isLoading` and `isOpen` both true,
activating the backdrop or the explicit close control does invoke a
callback — each emits `onClose`; the loading guard the claim asserts is
absent from the source, which wires `onClick=onClose` on both without
consulting `isLoading`. -/
theorem confirmationModal_loading_close_guard_cex :
    ¬ (∀ p : ConfirmationModalProps, p.isLoading = true → p.isOpen = true →
        ∀ d : RenderedDialog, renderConfirmationModal p = some d →
          d.backdrop.activate = [] ∧ d.closeButton.activate = []) := by
  intro h
  have hx := h { isOpen := true, isLoading := true } rfl rfl _ rfl
  exact absurd hx.1 (by decide)

/-- Claim C1, amended: with `isLoading` and `isOpen` both true, the
cancel and confirm buttons are inert (disabled, so activation emits
nothing), but a backdrop click and an activation of the explicit close
control each invoke `onClose`: the loading guard covers only the cancel
and confirm buttons. -/
theorem confirmationModal_loading_close_controls (p : ConfirmationModalProps)
    (hL : p.isLoading = true) (hO : p.isOpen = true) :
    (renderConfirmationModal p).map
      (fun d => (d.backdrop.activate, d.closeButton.activate,
                 d.cancelButton.activate, d.confirmButton.activate))
    = some ([CallbackEvent.callClose], [CallbackEvent.callClose], [], []) := by
  simp [renderConfirmationModal, hO, Control.activate, hL]

/-- Claim C1, amended, witness at a concrete open loading request. -/
theorem confirmationModal_loading_close_controls_witness :
    (renderConfirmationModal { isOpen := true, isLoading := true }).map
      (fun d => (d.backdrop.activate, d.closeButton.activate,
                 d.cancelButton.activate, d.confirmButton.activate))
    = some ([CallbackEvent.callClose], [CallbackEvent.callClose], [], []) :=
  confirmationModal_loading_close_controls { isOpen := true, isLoading := true } rfl rfl

/-- Claim C5: whenever `isLoading` is true, the rendered cancel and
confirm buttons both carry `disabled`, and activating either emits no
callback; when the gate is closed nothing is rendered at all. -/
theorem confirmationModal_loading_disables_actions (p : ConfirmationModalProps)
    (hL : p.isLoading = true) :
    (renderConfirmationModal p).map
      (fun d => (d.cancelButton.disabled, d.confirmButton.disabled,
                 d.cancelButton.activate, d.confirmButton.activate))
    = if p.isOpen then some (true, true, [], []) else none := by
  by_cases hO : p.isOpen = true
  · simp [renderConfirmationModal, hO, Control.activate, hL]
  · simp only [Bool.not_eq_true] at hO
    simp [renderConfirmationModal, hO]

/-- Claim C5, witness at a concrete open loading request. -/
theorem confirmationModal_loading_disables_actions_witness :
    (renderConfirmationModal { isOpen := true, isLoading := true }).map
      (fun d => (d.cancelButton.disabled, d.confirmButton.disabled,
                 d.cancelButton.activate, d.confirmButton.activate))
    = some (true, true, [], []) := by
  simpa using confirmationModal_loading_disables_actions { isOpen := true, isLoading := true } rfl

/-- Claim C8: two requests that differ only in `variant` render dialogs
with the same behaviour — identical callback wiring, disabled flags and
label text on every control and identical content text; `variant`
reaches only the style classes, which the behaviour projection erases. -/
theorem confirmationModal_variant_styling_only (p : ConfirmationModalProps) (v : Severity) :
    (renderConfirmationModal { p with variant := v }).map RenderedDialog.behaviour
    = (renderConfirmationModal p).map RenderedDialog.behaviour := by
  by_cases hO : p.isOpen = true
  · simp [renderConfirmationModal, hO, RenderedDialog.behaviour, Control.behaviour]
  · simp only [Bool.not_eq_true] at hO
    simp [renderConfirmationModal, hO]

/-- Claim C3: when the sign-out call rejects, the resumed handler
clears the loading flag, leaves the gate visible, emits the diagnostic
log, requests no navigation, and the re-rendered confirm button is
enabled again so the user can confirm again. -/
theorem authButton_signOut_failure (s : AuthState) (err : String)
    (h : s.showSignOutConfirm = true) :
    (confirmSignOutResume (SignOutResult.failure err) s).1.isSigningOut = false ∧
    (confirmSignOutResume (SignOutResult.failure err) s).1.showSignOutConfirm = true ∧
    (confirmSignOutResume (SignOutResult.failure err) s).2.any Effect.isDiagnostic = true ∧
    (confirmSignOutResume (SignOutResult.failure err) s).2.all (fun e => !e.isNav) = true ∧
    (renderConfirmationModal
        (authModalProps (confirmSignOutResume (SignOutResult.failure err) s).1)).map
      (fun d => d.confirmButton.disabled) = some false := by
  simp [confirmSignOutResume, Effect.isDiagnostic, Effect.isNav, h,
        renderConfirmationModal, authModalProps]

/-- Claim C3, witness at a concrete loading state with the gate open
and a concrete rejection. -/
theorem authButton_signOut_failure_witness :
    (confirmSignOutResume (SignOutResult.failure "network error")
        { showSignOutConfirm := true, isSigningOut := true }).1.isSigningOut = false ∧
    (confirmSignOutResume (SignOutResult.failure "network error")
        { showSignOutConfirm := true, isSigningOut := true }).1.showSignOutConfirm = true ∧
    (confirmSignOutResume (SignOutResult.failure "network error")
        { showSignOutConfirm := true, isSigningOut := true }).2.any Effect.isDiagnostic = true ∧
    (confirmSignOutResume (SignOutResult.failure "network error")
        { showSignOutConfirm := true, isSigningOut := true }).2.all (fun e => !e.isNav) = true ∧
    (renderConfirmationModal
        (authModalProps (confirmSignOutResume (SignOutResult.failure "network error")
          { showSignOutConfirm := true, isSigningOut := true }).1)).map
      (fun d => d.confirmButton.disabled) = some false :=
  authButton_signOut_failure { showSignOutConfirm := true, isSigningOut := true }
    "network error" rfl

/-- Claim C4: when the sign-out call resolves without error, the
resumed handler hides the gate, clears the loading flag, and emits
exactly one navigation request, to the home destination. -/
theorem authButton_signOut_success (s : AuthState) :
    (confirmSignOutResume SignOutResult.success s).1.showSignOutConfirm = false ∧
    (confirmSignOutResume SignOutResult.success s).1.isSigningOut = false ∧
    (confirmSignOutResume SignOutResult.success s).2 = [Effect.navigate "/"] := by
  simp [confirmSignOutResume]

/-- Claim C7: while the session query is pending, `AuthButton` renders
the disabled placeholder whatever the session value is, and in
particular never the sign-in affordance. -/
theorem authButton_pending_placeholder (sess : SessionInfo) (s : AuthState)
    (h : sess.isPending = true) :
    renderAuthButton sess s = AuthView.placeholder true ∧
    (renderAuthButton sess s).isSignInView = false := by
  simp [renderAuthButton, h, AuthView.isSignInView]

/-- Claim C7, witness with a session present and the query pending. -/
theorem authButton_pending_placeholder_witness :
    renderAuthButton { hasSession := true, isPending := true }
        { showSignOutConfirm := false, isSigningOut := false }
      = AuthView.placeholder true ∧
    (renderAuthButton { hasSession := true, isPending := true }
        { showSignOutConfirm := false, isSigningOut := false }).isSignInView = false :=
  authButton_pending_placeholder { hasSession := true, isPending := true }
    { showSignOutConfirm := false, isSigningOut := false } rfl

/-- Claim C9: a further sign-out request while the confirmation is
already visible leaves the state unchanged and emits no effect —
`handleSignOutClick` only sets the already-true `showSignOutConfirm`. -/
theorem requestSignOut_idempotent_when_visible (s : SystemState)
    (h : s.ui.showSignOutConfirm = true) :
    step s UserEvent.clickSignOut = (s, []) := by
  cases s with
  | mk ui pending =>
      cases ui
      simp_all [step, handleSignOutClick]

/-- Claim C9, witness at the state just after a first sign-out
request. -/
theorem requestSignOut_idempotent_when_visible_witness :
    step { ui := { showSignOutConfirm := true, isSigningOut := false },
           pendingSignOut := false } UserEvent.clickSignOut
      = ({ ui := { showSignOutConfirm := true, isSigningOut := false },
           pendingSignOut := false }, []) :=
  requestSignOut_idempotent_when_visible
    { ui := { showSignOutConfirm := true, isSigningOut := false },
      pendingSignOut := false } rfl

/-- Invariant of the signed-in control: while a sign-out call is
outstanding, the loading flag is set. Only the confirm path issues a
call, it sets the flag in the same synchronous phase, and the flag is
cleared only when the call settles. -/
theorem pending_implies_loading {s : SystemState} (h : Reachable s) :
    s.pendingSignOut = true → s.ui.isSigningOut = true := by
  induction h with
  | init => simp [initState]
  | next e hs ih =>
      rename_i t
      cases e with
      | clickSignOut =>
          simpa [step, handleSignOutClick] using ih
      | clickConfirm =>
          by_cases hc : t.ui.showSignOutConfirm && !t.ui.isSigningOut
          · simp [step, hc, confirmSignOutStart]
          · simpa [step, hc] using ih
      | clickCancel =>
          by_cases hc : t.ui.showSignOutConfirm && !t.ui.isSigningOut
          · simpa [step, hc] using ih
          · simpa [step, hc] using ih
      | clickBackdrop =>
          by_cases hc : t.ui.showSignOutConfirm = true
          · simpa [step, hc] using ih
          · simpa [step, hc] using ih
      | clickCloseButton =>
          by_cases hc : t.ui.showSignOutConfirm = true
          · simpa [step, hc] using ih
          · simpa [step, hc] using ih
      | resolveSignOut r =>
          by_cases hc : t.pendingSignOut = true
          · cases r <;> simp [step, hc, confirmSignOutResume]
          · simp [step, hc]

/-- Claim C2: the confirm path sets the loading flag in its synchronous
phase, before the await, and that phase issues exactly one sign-out
call; and in any reachable state with that call still outstanding a
further confirm is a no-op — the confirm button is disabled because the
loading flag is still set — so no second call can be issued while the
first is outstanding. -/
theorem confirm_fires_signOut_once (s : SystemState) (h : Reachable s) :
    ((confirmSignOutStart s.ui).1.isSigningOut = true ∧
     (confirmSignOutStart s.ui).2 = [Effect.signOutCall]) ∧
    (s.pendingSignOut = true → step s UserEvent.clickConfirm = (s, [])) := by
  refine ⟨⟨rfl, rfl⟩, fun hp => ?_⟩
  have hload := pending_implies_loading h hp
  simp [step, hload]

/-- Claim C2, witness at the reachable state reached by requesting
sign-out and confirming once. -/
theorem confirm_fires_signOut_once_witness :
    step { ui := { showSignOutConfirm := true, isSigningOut := true },
           pendingSignOut := true } UserEvent.clickConfirm
      = ({ ui := { showSignOutConfirm := true, isSigningOut := true },
           pendingSignOut := true }, []) := by
  have h1 := Reachable.next UserEvent.clickSignOut Reachable.init
  have h2 := Reachable.next UserEvent.clickConfirm h1
  simp only [step, initState, handleSignOutClick, confirmSignOutStart] at h2
  exact (confirm_fires_signOut_once _ (by simpa using h2)).2 rfl

/-- Evaluation lemma: the release literal does not suppress. -/
theorem isSuppressed_unset : isSuppressed "unset" = false := rfl

/-- Evaluation lemma: the value the effect body assigns suppresses
exactly when `isOpen` is true. -/
theorem isSuppressed_effectAssign (o : Bool) : isSuppressed (effectAssign o) = o := by
  cases o <;> rfl

/-- Unfolding lemma: a re-render with unchanged `isOpen` runs nothing. -/
theorem modalTraceAux_same (prev u : Bool) (rest : List Bool) :
    modalTraceAux prev u (prev :: rest) = modalTraceAux prev u rest := by
  simp [modalTraceAux]

/-- Unfolding lemma: a re-render with changed `isOpen` runs the cleanup
then the effect body. -/
theorem modalTraceAux_diff (prev u o : Bool) (rest : List Bool) (h : ¬ o = prev) :
    modalTraceAux prev u (o :: rest)
      = "unset" :: effectAssign o :: modalTraceAux o u rest := by
  simp [modalTraceAux, h]

/-- Unfolding lemma for `lastRender`. -/
theorem lastRender_cons (prev o : Bool) (rest : List Bool) :
    lastRender prev (o :: rest) = lastRender o rest := rfl

/-- Unfolding lemma for `countOpens`. -/
theorem countOpens_cons (prev o : Bool) (rest : List Bool) :
    countOpens prev (o :: rest) = (if !prev && o then 1 else 0) + countOpens o rest := rfl

/-- Unfolding lemma for `countCloses`. -/
theorem countCloses_cons (prev u o : Bool) (rest : List Bool) :
    countCloses prev u (o :: rest)
      = (if prev && !o then 1 else 0) + countCloses o u rest := rfl

/-- Unfolding lemma for `countActivations`. -/
theorem countActivations_cons (cur a : String) (t : List String) :
    countActivations cur (a :: t)
      = (if !isSuppressed cur && isSuppressed a then 1 else 0) + countActivations a t := rfl

/-- Unfolding lemma for `countReleases`. -/
theorem countReleases_cons (cur a : String) (t : List String) :
    countReleases cur (a :: t)
      = (if isSuppressed cur && !isSuppressed a then 1 else 0) + countReleases a t := rfl

/-- Unfolding lemma for `finalOverflow`. -/
theorem finalOverflow_cons (cur a : String) (t : List String) :
    finalOverflow cur (a :: t) = finalOverflow a t := rfl

/-- Helper for the scroll-lock accounting: once an effect has run with
dependency `prev`, the suppressed state equals `prev`; from there the
remaining trace performs one activation per transition into open, one
release per transition out of open (an unmount while open included),
and ends unsuppressed whenever the gate does not end open. -/
theorem scrollLock_aux (rest : List Bool) (prev : Bool) (unmounted : Bool) (cur : String)
    (h : isSuppressed cur = prev) :
    countActivations cur (modalTraceAux prev unmounted rest) = countOpens prev rest ∧
    countReleases cur (modalTraceAux prev unmounted rest)
      = countCloses prev unmounted rest ∧
    ((!unmounted && lastRender prev rest) = false →
      isSuppressed (finalOverflow cur (modalTraceAux prev unmounted rest)) = false) := by
  induction rest generalizing prev cur with
  | nil =>
      cases unmounted with
      | true =>
          refine ⟨?_, ?_, ?_⟩
          · simp [modalTraceAux, countActivations_cons, countActivations, countOpens,
                  isSuppressed_unset]
          · simp [modalTraceAux, countReleases_cons, countReleases, countCloses,
                  isSuppressed_unset, h]
          · intro _
            simp [modalTraceAux, finalOverflow_cons, finalOverflow, isSuppressed_unset]
      | false =>
          refine ⟨?_, ?_, ?_⟩
          · simp [modalTraceAux, countActivations, countOpens]
          · simp [modalTraceAux, countReleases, countCloses]
          · intro hc
            simp only [Bool.not_false, Bool.true_and, lastRender] at hc
            simp [modalTraceAux, finalOverflow, h, hc]
  | cons o rest ih =>
      by_cases ho : o = prev
      · subst ho
        have hih := ih o cur h
        refine ⟨?_, ?_, ?_⟩
        · rw [modalTraceAux_same, countOpens_cons, hih.1]
          cases o <;> simp
        · rw [modalTraceAux_same, countCloses_cons, hih.2.1]
          cases o <;> simp
        · intro hc
          rw [modalTraceAux_same]
          exact hih.2.2 (by rwa [lastRender_cons] at hc)
      · have hih := ih o (effectAssign o) (isSuppressed_effectAssign o)
        refine ⟨?_, ?_, ?_⟩
        · rw [modalTraceAux_diff prev unmounted o rest ho, countActivations_cons,
              countActivations_cons, hih.1, countOpens_cons,
              isSuppressed_unset, isSuppressed_effectAssign]
          cases o with
          | true =>
              have hprev : prev = false := by
                cases prev
                · rfl
                · exact absurd rfl ho
              simp [hprev, h]
          | false =>
              simp
        · rw [modalTraceAux_diff prev unmounted o rest ho, countReleases_cons,
              countReleases_cons, hih.2.1, countCloses_cons,
              isSuppressed_unset, h]
          cases o with
          | true =>
              have hprev : prev = false := by
                cases prev
                · rfl
                · exact absurd rfl ho
              simp [hprev]
          | false =>
              have hprev : prev = true := by
                cases prev
                · exact absurd rfl ho
                · rfl
              simp [hprev]
        · intro hc
          rw [modalTraceAux_diff prev unmounted o rest ho, finalOverflow_cons,
              finalOverflow_cons]
          exact hih.2.2 (by rwa [lastRender_cons] at hc)

/-- Claim C6: over any component lifetime starting with background
scroll unsuppressed, the assignment trace of the effect performs exactly
one scroll-suppression activation per transition of `isOpen` into true
and exactly one release per transition out of true, an unmount while
still open included; whenever the lifetime ends with no gate open, the
background scroll ends released. -/
theorem scrollLock_balanced (renders : List Bool) (unmounted : Bool) (ov : String)
    (h : isSuppressed ov = false) :
    countActivations ov (modalTrace renders unmounted) = countOpens false renders ∧
    countReleases ov (modalTrace renders unmounted)
      = countCloses false unmounted renders ∧
    (gateOpenAtEnd renders unmounted = false →
      isSuppressed (finalOverflow ov (modalTrace renders unmounted)) = false) := by
  cases renders with
  | nil =>
      refine ⟨rfl, ?_, fun _ => h⟩
      cases unmounted <;> simp [modalTrace, countReleases, countCloses]
  | cons o rest =>
      have hih := scrollLock_aux rest o unmounted (effectAssign o) (isSuppressed_effectAssign o)
      refine ⟨?_, ?_, ?_⟩
      · show countActivations ov (effectAssign o :: modalTraceAux o unmounted rest) = _
        rw [countActivations_cons, hih.1, countOpens_cons, isSuppressed_effectAssign, h]
      · show countReleases ov (effectAssign o :: modalTraceAux o unmounted rest) = _
        rw [countReleases_cons, hih.2.1, countCloses_cons, h]
        simp
      · intro hc
        show isSuppressed (finalOverflow ov (effectAssign o :: modalTraceAux o unmounted rest))
              = false
        rw [finalOverflow_cons]
        refine hih.2.2 ?_
        simpa [gateOpenAtEnd, lastRender_cons] using hc

/-- Claim C6, witness: an open-then-close lifetime starting from
overflow style "auto". -/
theorem scrollLock_balanced_witness :
    isSuppressed "auto" = false ∧
    (countActivations "auto" (modalTrace [true, false] false)
        = countOpens false [true, false] ∧
     countReleases "auto" (modalTrace [true, false] false)
        = countCloses false false [true, false] ∧
     (gateOpenAtEnd [true, false] false = false →
       isSuppressed (finalOverflow "auto" (modalTrace [true, false] false)) = false)) :=
  ⟨rfl, scrollLock_balanced [true, false] false "auto" rfl⟩

/-- Claim C10: after an open-then-close cycle, and after an unmount
while open, the effect leaves `document.body.style.overflow` at the
fixed literal "unset"; any pre-existing value other than "unset" is
overwritten, not restored. -/
theorem scrollLock_overwrites_overflow (v : String) (h : v ≠ "unset") :
    finalOverflow v (modalTrace [true, false] false) = "unset" ∧
    finalOverflow v (modalTrace [true, false] false) ≠ v ∧
    finalOverflow v (modalTrace [true] true) = "unset" ∧
    finalOverflow v (modalTrace [true] true) ≠ v := by
  refine ⟨rfl, ?_, rfl, ?_⟩ <;>
    · intro hv
      exact h (by simpa using hv.symm)

/-- Claim C10, witness at pre-existing overflow style "auto". -/
theorem scrollLock_overwrites_overflow_witness :
    ("auto" : String) ≠ "unset" ∧
    (finalOverflow "auto" (modalTrace [true, false] false) = "unset" ∧
     finalOverflow "auto" (modalTrace [true, false] false) ≠ "auto" ∧
     finalOverflow "auto" (modalTrace [true] true) = "unset" ∧
     finalOverflow "auto" (modalTrace [true] true) ≠ "auto") :=
  ⟨by decide, scrollLock_overwrites_overflow "auto" (by decide)⟩

end SignOutFlow
